import Mathlib

/-!
Shallow embedding of the size-control state machine of
`src/ControlSystem/ControlErrors/Size/DeltaR.cpp` (namespace
`control_system::size::States`), together with theorems about the
behaviour of `DeltaR::update` and `DeltaR::control_error`.

Doubles are modelled by exact rationals; `std::optional<double>` by
`Option ℚ`.  `x.value_or(infinity) < d` for a finite `d` is captured by
`value_or_inf_lt`: it holds exactly when the optional is present and its
value is below `d`.
-/

namespace ControlSize

/-- The concrete `State` variants of the size-control state machine
(`Initial`, `AhSpeed`, `DeltaR`, `DeltaRDriftInward`,
`DeltaRDriftOutward`).  `DeltaR::update` only ever installs `AhSpeed`;
the polymorphic pointer in `Info::state` is modelled by this tag. -/
inductive StateName where
  | Initial
  | AhSpeed
  | DeltaR
  | DeltaRDriftInward
  | DeltaRDriftOutward
deriving DecidableEq, Repr

/-- The mutable control context `Info` threaded through every `update`
call.  Field types follow the spec's data model (the struct declaration
itself lives in a header outside the excerpt): `state` is the active
state tag, `damping_time` the current timescale, `suggested_time_scale`
and `target_char_speed` optional outputs, and
`discontinuous_change_has_occurred` the transition flag. -/
structure Info where
  state : StateName
  damping_time : ℚ
  suggested_time_scale : Option ℚ
  discontinuous_change_has_occurred : Bool
  target_char_speed : Option ℚ
deriving DecidableEq, Repr

/-- The per-evaluation input bundle `StateUpdateArgs`. -/
structure StateUpdateArgs where
  control_error_delta_r : ℚ
  min_char_speed : ℚ
  min_comoving_char_speed : ℚ
deriving DecidableEq, Repr

/-- The predictor output `CrossingTimeInfo`: optional predicted crossing
times and the two mutually exclusive nearest-threat flags. -/
structure CrossingTimeInfo where
  t_char_speed : Option ℚ
  t_delta_radius : Option ℚ
  t_comoving_char_speed : Option ℚ
  char_speed_will_hit_zero_first : Bool
  horizon_will_hit_excision_boundary_first : Bool
deriving DecidableEq, Repr

/-- The argument bundle for `control_error`. -/
structure ControlErrorArgs where
  control_error_delta_r : ℚ
deriving DecidableEq, Repr

/-- Semantics of `t.value_or(std::numeric_limits<double>::infinity()) < d`
for a finite bound `d`: false when the optional is empty, otherwise the
plain comparison. -/
def value_or_inf_lt (t : Option ℚ) (d : ℚ) : Bool :=
  match t with
  | some x => decide (x < d)
  | none => false

namespace DeltaR

/-- Constant `delta_r_control_error_threshold = 1e-3` from
`DeltaR::update`. -/
def delta_r_control_error_threshold : ℚ := 1/1000

/-- Constant `time_tolerance_for_delta_r_in_danger = 0.99` from
`DeltaR::update`. -/
def time_tolerance_for_delta_r_in_danger : ℚ := 99/100

/-- Constant `non_oscillation_factor = 1.01` from `DeltaR::update`. -/
def non_oscillation_factor : ℚ := 101/100

/-- Constant `delta_r_state_decrease_factor = 0.99` from
`DeltaR::update`. -/
def delta_r_state_decrease_factor : ℚ := 99/100

/-- The local `delta_radius_is_in_danger` of `DeltaR::update`:
`horizon_will_hit_excision_boundary_first and
t_delta_radius.value_or(inf) < damping_time * 0.99`. -/
def delta_radius_is_in_danger (info : Info) (c : CrossingTimeInfo) : Bool :=
  c.horizon_will_hit_excision_boundary_first &&
    value_or_inf_lt c.t_delta_radius
      (info.damping_time * time_tolerance_for_delta_r_in_danger)

/-- The local `char_speed_is_in_danger` of `DeltaR::update`:
`char_speed_will_hit_zero_first and t_char_speed.value_or(inf) <
damping_time and not delta_radius_is_in_danger`. -/
def char_speed_is_in_danger (info : Info) (c : CrossingTimeInfo) : Bool :=
  c.char_speed_will_hit_zero_first &&
    value_or_inf_lt c.t_char_speed info.damping_time &&
    !(delta_radius_is_in_danger info c)

/-- `DeltaR::update`, as a function from the incoming `Info` and the two
argument bundles to the outgoing `Info` (the C++ mutates `info` in
place; the diagnostic string is ignored). -/
def update (info : Info) (u : StateUpdateArgs) (c : CrossingTimeInfo) : Info :=
  if char_speed_is_in_danger info c then
    if c.t_comoving_char_speed.isSome ∨ u.min_comoving_char_speed < 0 then
      { info with
          discontinuous_change_has_occurred := true,
          state := StateName.AhSpeed,
          target_char_speed := some (u.min_char_speed * non_oscillation_factor),
          suggested_time_scale := c.t_char_speed }
    else
      { info with suggested_time_scale := c.t_char_speed }
  else if delta_radius_is_in_danger info c then
    { info with suggested_time_scale := c.t_delta_radius }
  else if u.min_comoving_char_speed > 0 ∧
      |u.control_error_delta_r| > delta_r_control_error_threshold then
    { info with
        suggested_time_scale := some (info.damping_time * delta_r_state_decrease_factor) }
  else
    info

/-- `DeltaR::control_error`: returns
`control_error_args.control_error_delta_r`, ignoring `info`. -/
def control_error (_info : Info) (control_error_args : ControlErrorArgs) : ℚ :=
  control_error_args.control_error_delta_r

/-- Characterization of the value-or-infinity comparison: it succeeds
exactly when the optional time is present and below the bound. -/
theorem value_or_inf_lt_iff {t : Option ℚ} {d : ℚ} :
    value_or_inf_lt t d = true ↔ ∃ x, t = some x ∧ x < d := by
  cases t <;> simp [value_or_inf_lt]

/-- When the char speed is in danger, a predicted char-speed crossing
time exists and is below the damping time. -/
theorem char_danger_time {info : Info} {c : CrossingTimeInfo}
    (h : char_speed_is_in_danger info c = true) :
    ∃ t, c.t_char_speed = some t ∧ t < info.damping_time := by
  rw [char_speed_is_in_danger, Bool.and_eq_true, Bool.and_eq_true] at h
  exact value_or_inf_lt_iff.mp h.1.2

/-- When the delta radius is in danger, a predicted radius crossing time
exists and is below `damping_time * 0.99`. -/
theorem delta_danger_time {info : Info} {c : CrossingTimeInfo}
    (h : delta_radius_is_in_danger info c = true) :
    ∃ t, c.t_delta_radius = some t ∧
      t < info.damping_time * time_tolerance_for_delta_r_in_danger := by
  rw [delta_radius_is_in_danger, Bool.and_eq_true] at h
  exact value_or_inf_lt_iff.mp h.2

/-- C1: when the char speed is in danger and the comoving char speed is
predicted to cross zero or is negative, `update` installs the AhSpeed
state, sets the target char speed to exactly
`min_char_speed * 1.01`, sets the discontinuous-change flag, and sets
the suggested timescale to the predicted char-speed crossing time. -/
theorem update_char_danger_to_ah_speed (info : Info) (u : StateUpdateArgs)
    (c : CrossingTimeInfo)
    (hc : char_speed_is_in_danger info c = true)
    (hz : c.t_comoving_char_speed.isSome ∨ u.min_comoving_char_speed < 0) :
    (update info u c).state = StateName.AhSpeed ∧
    (update info u c).target_char_speed
      = some (u.min_char_speed * non_oscillation_factor) ∧
    (update info u c).discontinuous_change_has_occurred = true ∧
    (update info u c).suggested_time_scale = c.t_char_speed ∧
    ∃ t, c.t_char_speed = some t := by
  obtain ⟨t, ht, -⟩ := char_danger_time hc
  refine ⟨?_, ?_, ?_, ?_, t, ht⟩ <;> simp [update, hc, hz]

/-- C2: the two danger booleans of `DeltaR::update` hold exactly as the
spec describes them, with an absent crossing time treated as infinite. -/
theorem danger_booleans_characterization (info : Info) (c : CrossingTimeInfo) :
    (delta_radius_is_in_danger info c = true ↔
      (c.horizon_will_hit_excision_boundary_first = true ∧
        ∃ t, c.t_delta_radius = some t ∧ t < info.damping_time * (99/100))) ∧
    (char_speed_is_in_danger info c = true ↔
      (c.char_speed_will_hit_zero_first = true ∧
        (∃ t, c.t_char_speed = some t ∧ t < info.damping_time) ∧
        delta_radius_is_in_danger info c = false)) := by
  constructor
  · rw [delta_radius_is_in_danger, Bool.and_eq_true, value_or_inf_lt_iff,
      time_tolerance_for_delta_r_in_danger]
  · rw [char_speed_is_in_danger, Bool.and_eq_true, Bool.and_eq_true,
      value_or_inf_lt_iff, Bool.not_eq_true']
    tauto

/-- C3: the two danger booleans of a single `DeltaR::update` evaluation
are never both true. -/
theorem dangers_mutually_exclusive (info : Info) (c : CrossingTimeInfo) :
    (delta_radius_is_in_danger info c && char_speed_is_in_danger info c)
      = false := by
  cases h : delta_radius_is_in_danger info c
  · simp
  · simp [char_speed_is_in_danger, h]

/-- C4: with neither danger flagged, a non-positive comoving char speed
or an in-threshold control error leaves the whole `Info` untouched:
state, suggested timescale, discontinuous-change flag and target char
speed are all unchanged. -/
theorem update_no_change (info : Info) (u : StateUpdateArgs)
    (c : CrossingTimeInfo)
    (h1 : char_speed_is_in_danger info c = false)
    (h2 : delta_radius_is_in_danger info c = false)
    (h3 : u.min_comoving_char_speed ≤ 0 ∨
      |u.control_error_delta_r| ≤ delta_r_control_error_threshold) :
    update info u c = info := by
  have hcond : ¬(u.min_comoving_char_speed > 0 ∧
      |u.control_error_delta_r| > delta_r_control_error_threshold) := by
    rcases h3 with h | h
    · exact fun hq => absurd hq.1 (not_lt.mpr h)
    · exact fun hq => absurd hq.2 (not_lt.mpr h)
  simp [update, h1, h2, hcond]

/-- C5: with neither danger flagged, the shrink branch fires exactly when
the comoving char speed is positive and the control error strictly
exceeds the 1e-3 threshold, and then the only change is setting the
suggested timescale to `damping_time * 0.99`. -/
theorem update_shrink_timescale (info : Info) (u : StateUpdateArgs)
    (c : CrossingTimeInfo)
    (h1 : char_speed_is_in_danger info c = false)
    (h2 : delta_radius_is_in_danger info c = false) :
    (u.min_comoving_char_speed > 0 ∧
        |u.control_error_delta_r| > delta_r_control_error_threshold →
      update info u c
        = { info with
            suggested_time_scale :=
              some (info.damping_time * delta_r_state_decrease_factor) }) ∧
    (¬(u.min_comoving_char_speed > 0 ∧
        |u.control_error_delta_r| > delta_r_control_error_threshold) →
      update info u c = info) := by
  constructor <;> intro h <;> simp [update, h1, h2, h]

/-- C6: with the delta radius in danger and the char speed not, `update`
only sets the suggested timescale, to the predicted radius crossing
time. -/
theorem update_delta_radius_danger (info : Info) (u : StateUpdateArgs)
    (c : CrossingTimeInfo)
    (h1 : delta_radius_is_in_danger info c = true)
    (h2 : char_speed_is_in_danger info c = false) :
    update info u c = { info with suggested_time_scale := c.t_delta_radius } ∧
    ∃ t, c.t_delta_radius = some t := by
  obtain ⟨t, ht, -⟩ := delta_danger_time h1
  exact ⟨by simp [update, h1, h2], t, ht⟩

/-- C7: with the char speed in danger but the comoving char speed not
predicted to cross zero and non-negative, `update` stays in DeltaR with
no discontinuous change and only sets the suggested timescale, to the
predicted char-speed crossing time. -/
theorem update_char_danger_stay (info : Info) (u : StateUpdateArgs)
    (c : CrossingTimeInfo)
    (h1 : char_speed_is_in_danger info c = true)
    (h2 : c.t_comoving_char_speed = none)
    (h3 : 0 ≤ u.min_comoving_char_speed) :
    update info u c = { info with suggested_time_scale := c.t_char_speed } ∧
    ∃ t, c.t_char_speed = some t := by
  have hcond : ¬(c.t_comoving_char_speed.isSome ∨
      u.min_comoving_char_speed < 0) := by
    simp [h2, not_lt]
    exact h3
  obtain ⟨t, ht, -⟩ := char_danger_time h1
  exact ⟨by simp [update, h1, hcond], t, ht⟩

/-- C8: `DeltaR::control_error` returns the radius residual unchanged,
and two calls with identical arguments agree (it is a pure function of
its arguments). -/
theorem control_error_returns_delta_r (info : Info) (a : ControlErrorArgs) :
    control_error info a = a.control_error_delta_r ∧
    control_error info a = control_error info a :=
  ⟨rfl, rfl⟩

/-- C9: with a positive damping time, positive present crossing times,
and a positive previously suggested timescale, every suggested timescale
present after `update` is positive. -/
theorem update_preserves_positive_suggested (info : Info)
    (u : StateUpdateArgs) (c : CrossingTimeInfo)
    (hd : 0 < info.damping_time)
    (hs : ∀ s, info.suggested_time_scale = some s → 0 < s)
    (h1 : ∀ t, c.t_char_speed = some t → 0 < t)
    (h2 : ∀ t, c.t_delta_radius = some t → 0 < t) :
    ∀ s, (update info u c).suggested_time_scale = some s → 0 < s := by
  intro s hsome
  unfold update at hsome
  split_ifs at hsome with hA hB hC hD
  · exact h1 s (by simpa using hsome)
  · exact h1 s (by simpa using hsome)
  · exact h2 s (by simpa using hsome)
  · have hval : info.damping_time * delta_r_state_decrease_factor = s := by
      simpa using hsome
    rw [← hval, delta_r_state_decrease_factor]
    exact mul_pos hd (by norm_num)
  · exact hs s hsome

/-- C10: with a positive damping time, `update` never changes the
damping time, and in each of the three branches that assign a suggested
timescale the assigned value is strictly below the damping time. -/
theorem update_only_shrinks_timescale (info : Info) (u : StateUpdateArgs)
    (c : CrossingTimeInfo)
    (hd : 0 < info.damping_time) :
    (update info u c).damping_time = info.damping_time ∧
    ((char_speed_is_in_danger info c = true ∨
      delta_radius_is_in_danger info c = true ∨
      (u.min_comoving_char_speed > 0 ∧
        |u.control_error_delta_r| > delta_r_control_error_threshold)) →
      ∃ s, (update info u c).suggested_time_scale = some s ∧
        s < info.damping_time) := by
  constructor
  · unfold update
    split_ifs <;> rfl
  · intro hbr
    cases hA : char_speed_is_in_danger info c with
    | true =>
      obtain ⟨t, ht, hlt⟩ := char_danger_time hA
      by_cases hB : (c.t_comoving_char_speed.isSome ∨
          u.min_comoving_char_speed < 0)
      · exact ⟨t, by simp [update, hA, hB, ht], hlt⟩
      · exact ⟨t, by simp [update, hA, hB, ht], hlt⟩
    | false =>
      cases hC : delta_radius_is_in_danger info c with
      | true =>
        obtain ⟨t, ht, hlt⟩ := delta_danger_time hC
        refine ⟨t, by simp [update, hA, hC, ht], ?_⟩
        rw [time_tolerance_for_delta_r_in_danger] at hlt
        linarith
      | false =>
        have hcond : u.min_comoving_char_speed > 0 ∧
            |u.control_error_delta_r| > delta_r_control_error_threshold := by
          rcases hbr with h | h | h
          · rw [hA] at h; cases h
          · rw [hC] at h; cases h
          · exact h
        refine ⟨info.damping_time * delta_r_state_decrease_factor,
          by simp [update, hA, hC, hcond], ?_⟩
        rw [delta_r_state_decrease_factor]
        linarith

/-- Incoming `Info` for the C1 spec scenario: DeltaR active, damping
time 10. -/
def infoC1 : Info := ⟨StateName.DeltaR, 10, none, false, none⟩

/-- Update args for the C1 spec scenario: `min_char_speed = -0.2`,
`min_comoving_char_speed = -0.1`. -/
def argsC1 : StateUpdateArgs := ⟨0, -(1/5), -(1/10)⟩

/-- Crossing times for the C1 spec scenario: char speed hits zero first
at `t_char_speed = 3`. -/
def ctiC1 : CrossingTimeInfo := ⟨some 3, none, none, true, false⟩

theorem update_char_danger_to_ah_speed_witness :
    char_speed_is_in_danger infoC1 ctiC1 = true ∧
    argsC1.min_comoving_char_speed < 0 ∧
    ((update infoC1 argsC1 ctiC1).state = StateName.AhSpeed ∧
      (update infoC1 argsC1 ctiC1).target_char_speed
        = some (argsC1.min_char_speed * non_oscillation_factor) ∧
      (update infoC1 argsC1 ctiC1).discontinuous_change_has_occurred = true ∧
      (update infoC1 argsC1 ctiC1).suggested_time_scale = ctiC1.t_char_speed ∧
      ∃ t, ctiC1.t_char_speed = some t) ∧
    argsC1.min_char_speed * non_oscillation_factor = -(101/500) ∧
    ctiC1.t_char_speed = some 3 := by
  have hc : char_speed_is_in_danger infoC1 ctiC1 = true := by
    norm_num [char_speed_is_in_danger, delta_radius_is_in_danger,
      value_or_inf_lt, infoC1, ctiC1]
  have hz : argsC1.min_comoving_char_speed < 0 := by norm_num [argsC1]
  exact ⟨hc, hz,
    update_char_danger_to_ah_speed infoC1 argsC1 ctiC1 hc (Or.inr hz),
    by norm_num [argsC1, non_oscillation_factor], rfl⟩

/-- Incoming `Info` for the C4 witness, with a previously suggested
timescale to show it is not mutated. -/
def infoC4 : Info := ⟨StateName.DeltaR, 10, some 1, false, none⟩

/-- Update args for the C4 witness: non-positive comoving char speed. -/
def argsC4 : StateUpdateArgs := ⟨0, 1, -1⟩

/-- Crossing times for the C4 witness: nothing predicted to cross. -/
def ctiC4 : CrossingTimeInfo := ⟨none, none, none, false, false⟩

theorem update_no_change_witness :
    char_speed_is_in_danger infoC4 ctiC4 = false ∧
    delta_radius_is_in_danger infoC4 ctiC4 = false ∧
    argsC4.min_comoving_char_speed ≤ 0 ∧
    update infoC4 argsC4 ctiC4 = infoC4 := by
  have h1 : char_speed_is_in_danger infoC4 ctiC4 = false := by
    simp [char_speed_is_in_danger, ctiC4]
  have h2 : delta_radius_is_in_danger infoC4 ctiC4 = false := by
    simp [delta_radius_is_in_danger, ctiC4]
  have h3 : argsC4.min_comoving_char_speed ≤ 0 := by norm_num [argsC4]
  exact ⟨h1, h2, h3, update_no_change infoC4 argsC4 ctiC4 h1 h2 (Or.inl h3)⟩

/-- Incoming `Info` for the C5 spec scenario: damping time 10. -/
def infoC5 : Info := ⟨StateName.DeltaR, 10, none, false, none⟩

/-- Update args for the C5 spec scenario: `control_error_delta_r = 2e-3`,
`min_comoving_char_speed = 0.5`. -/
def argsC5 : StateUpdateArgs := ⟨2/1000, 0, 1/2⟩

/-- Update args for the C5 boundary case: control error exactly at the
1e-3 threshold. -/
def argsC5b : StateUpdateArgs := ⟨1/1000, 0, 1/2⟩

/-- Crossing times for the C5 spec scenario: no predicted crossings. -/
def ctiC5 : CrossingTimeInfo := ⟨none, none, none, false, false⟩

theorem update_shrink_timescale_witness :
    char_speed_is_in_danger infoC5 ctiC5 = false ∧
    delta_radius_is_in_danger infoC5 ctiC5 = false ∧
    update infoC5 argsC5 ctiC5
      = { infoC5 with
          suggested_time_scale :=
            some (infoC5.damping_time * delta_r_state_decrease_factor) } ∧
    infoC5.damping_time * delta_r_state_decrease_factor = 99/10 ∧
    update infoC5 argsC5b ctiC5 = infoC5 := by
  have h1 : char_speed_is_in_danger infoC5 ctiC5 = false := by
    simp [char_speed_is_in_danger, ctiC5]
  have h2 : delta_radius_is_in_danger infoC5 ctiC5 = false := by
    simp [delta_radius_is_in_danger, ctiC5]
  refine ⟨h1, h2,
    (update_shrink_timescale infoC5 argsC5 ctiC5 h1 h2).1
      ⟨by norm_num [argsC5],
        by rw [delta_r_control_error_threshold]; norm_num [argsC5, abs]⟩,
    by norm_num [infoC5, delta_r_state_decrease_factor],
    (update_shrink_timescale infoC5 argsC5b ctiC5 h1 h2).2 ?_⟩
  rw [delta_r_control_error_threshold]
  norm_num [argsC5b, abs]

/-- Incoming `Info` for the C6 spec scenario: damping time 10. -/
def infoC6 : Info := ⟨StateName.DeltaR, 10, none, false, none⟩

/-- Update args for the C6 witness. -/
def argsC6 : StateUpdateArgs := ⟨0, 0, 0⟩

/-- Crossing times for the C6 spec scenario: the horizon hits the
excision boundary first, at `t_delta_radius = 5`. -/
def ctiC6 : CrossingTimeInfo := ⟨none, some 5, none, false, true⟩

theorem update_delta_radius_danger_witness :
    delta_radius_is_in_danger infoC6 ctiC6 = true ∧
    char_speed_is_in_danger infoC6 ctiC6 = false ∧
    update infoC6 argsC6 ctiC6
      = { infoC6 with suggested_time_scale := ctiC6.t_delta_radius } ∧
    ctiC6.t_delta_radius = some 5 := by
  have h1 : delta_radius_is_in_danger infoC6 ctiC6 = true := by
    norm_num [delta_radius_is_in_danger, value_or_inf_lt, infoC6, ctiC6,
      time_tolerance_for_delta_r_in_danger]
  have h2 : char_speed_is_in_danger infoC6 ctiC6 = false := by
    simp [char_speed_is_in_danger, ctiC6]
  exact ⟨h1, h2,
    (update_delta_radius_danger infoC6 argsC6 ctiC6 h1 h2).1, rfl⟩

/-- Incoming `Info` for the C7 witness: damping time 10. -/
def infoC7 : Info := ⟨StateName.DeltaR, 10, none, false, none⟩

/-- Update args for the C7 witness: non-negative comoving char speed. -/
def argsC7 : StateUpdateArgs := ⟨0, 0, 1/2⟩

/-- Crossing times for the C7 witness: char speed hits zero first at
`t_char_speed = 3`, comoving char speed not predicted to cross. -/
def ctiC7 : CrossingTimeInfo := ⟨some 3, none, none, true, false⟩

theorem update_char_danger_stay_witness :
    char_speed_is_in_danger infoC7 ctiC7 = true ∧
    ctiC7.t_comoving_char_speed = none ∧
    (0:ℚ) ≤ argsC7.min_comoving_char_speed ∧
    update infoC7 argsC7 ctiC7
      = { infoC7 with suggested_time_scale := ctiC7.t_char_speed } ∧
    ctiC7.t_char_speed = some 3 := by
  have h1 : char_speed_is_in_danger infoC7 ctiC7 = true := by
    norm_num [char_speed_is_in_danger, delta_radius_is_in_danger,
      value_or_inf_lt, infoC7, ctiC7]
  have h3 : (0:ℚ) ≤ argsC7.min_comoving_char_speed := by norm_num [argsC7]
  exact ⟨h1, rfl, h3,
    (update_char_danger_stay infoC7 argsC7 ctiC7 h1 rfl h3).1, rfl⟩

/-- Incoming `Info` for the C9 witness: damping time 10, no previously
suggested timescale. -/
def infoC9 : Info := ⟨StateName.DeltaR, 10, none, false, none⟩

/-- Update args for the C9 witness: positive comoving char speed, no
control error. -/
def argsC9 : StateUpdateArgs := ⟨0, 1, 1⟩

/-- Crossing times for the C9 witness: char speed hits zero first at
`t_char_speed = 3`. -/
def ctiC9 : CrossingTimeInfo := ⟨some 3, none, none, true, false⟩

theorem update_preserves_positive_suggested_witness :
    (0:ℚ) < infoC9.damping_time ∧
    (update infoC9 argsC9 ctiC9).suggested_time_scale = some 3 ∧
    (0:ℚ) < 3 := by
  have hupd : (update infoC9 argsC9 ctiC9).suggested_time_scale = some 3 := by
    norm_num [update, char_speed_is_in_danger, delta_radius_is_in_danger,
      value_or_inf_lt, infoC9, argsC9, ctiC9]
  refine ⟨by norm_num [infoC9], hupd, ?_⟩
  exact update_preserves_positive_suggested infoC9 argsC9 ctiC9
    (by norm_num [infoC9])
    (fun s hs => by simp [infoC9] at hs)
    (fun t ht => by simp [ctiC9] at ht; subst ht; norm_num)
    (fun t ht => by simp [ctiC9] at ht)
    3 hupd

/-- Incoming `Info` for the C10 witness: damping time 10. -/
def infoC10 : Info := ⟨StateName.DeltaR, 10, none, false, none⟩

/-- Update args for the C10 witness: negative comoving char speed. -/
def argsC10 : StateUpdateArgs := ⟨0, -(1/5), -(1/10)⟩

/-- Crossing times for the C10 witness: char speed hits zero first at
`t_char_speed = 3`. -/
def ctiC10 : CrossingTimeInfo := ⟨some 3, none, none, true, false⟩

theorem update_only_shrinks_timescale_witness :
    (update infoC10 argsC10 ctiC10).damping_time = infoC10.damping_time ∧
    ∃ s, (update infoC10 argsC10 ctiC10).suggested_time_scale = some s ∧
      s < infoC10.damping_time := by
  have hc : char_speed_is_in_danger infoC10 ctiC10 = true := by
    norm_num [char_speed_is_in_danger, delta_radius_is_in_danger,
      value_or_inf_lt, infoC10, ctiC10]
  have h := update_only_shrinks_timescale infoC10 argsC10 ctiC10
    (by norm_num [infoC10])
  exact ⟨h.1, h.2 (Or.inl hc)⟩

end DeltaR

end ControlSize
